import Mathlib

/-!
Verification of the build-log error analyzer (`error.py`).

The analyzer reads a log file line by line (each line stripped of its
trailing newline), segments the lines into error blocks with a
boolean-flag state machine, classifies each block against an ordered
catalog of patterns, prints a report, and touches a sentinel file
`have_error` when at least one error was counted.

The embedding below mirrors the source:
  * `isTrigger` embeds `re.search(r'\serror:|\sfatal error:|undefined reference to', line, re.IGNORECASE)`;
  * `isContinuation` embeds the continuation test
    `'note:' in line or (re.search(r'make\[\d+\]:', line) and '***' in line) or line.strip()`;
  * `stepLine` / `runSeg` / `finalBlocks` embed the loop of `analyze_errors`;
  * `error_patterns` / `analyze_error_block` embed the classification catalog;
  * `analyze_errors_pure` / `analyze_errors` embed the reporting and the
    existence check (printed lines are modelled as a list of strings, the
    sentinel-file touch as a boolean, and the `sys.exit(1)` path as an
    `aborted` result carrying the stdout and stderr lines produced).

Python-specific notes: `\s`, `\d` and case folding are modelled on their
ASCII meaning (the catalog patterns and all claims only involve ASCII);
`.` in a pattern does not match a newline, which matters for the three
catalog entries containing `.*` — their matchers only look within one
line of the joined block text.
-/

/-- ASCII model of Python's `\s` class (also of `str.strip()` whitespace):
space, tab, newline, carriage return, vertical tab, form feed. -/
def pyIsSpace (c : Char) : Bool :=
  c == ' ' || c == '\t' || c == '\n' || c == '\r' || c == Char.ofNat 11 || c == Char.ofNat 12

/-- ASCII case folding of a character list, modelling `re.IGNORECASE`
(pattern and text are both lowercased before literal comparison). -/
def lowerList (l : List Char) : List Char := l.map Char.toLower

/-- `containsSub p l` models `re.search` of the literal pattern `p` in text
`l` (equivalently Python's `p in l`): `p` occurs as a contiguous sublist. -/
def containsSub (p : List Char) : List Char → Bool
  | [] => p.isEmpty
  | c :: rest => p.isPrefixOf (c :: rest) || containsSub p rest

/-- `wsThenSearch p l` models `re.search` of `\s` followed by the literal
`p`: some position holds a whitespace character immediately followed by `p`. -/
def wsThenSearch (p : List Char) : List Char → Bool
  | [] => false
  | c :: rest => (pyIsSpace c && p.isPrefixOf rest) || wsThenSearch p rest

/-- Embeds the trigger test of `analyze_errors`:
`re.search(r'\serror:|\sfatal error:|undefined reference to', line, re.IGNORECASE)`. -/
def isTrigger (line : String) : Bool :=
  wsThenSearch ("error:".toList) (lowerList line.toList)
    || wsThenSearch ("fatal error:".toList) (lowerList line.toList)
    || containsSub ("undefined reference to".toList) (lowerList line.toList)

/-- After `make[`, consume the remaining digits of `\d+`, then require `]:`
and hand the rest of the text to the continuation `k` (maximal munch agrees
with the regex here since `]` is not a digit). -/
def digitsThenBrk (k : List Char → Bool) : List Char → Bool
  | [] => false
  | c :: rest =>
      if c.isDigit then digitsThenBrk k rest
      else
        c == ']' && (match rest with
          | c2 :: r2 => c2 == ':' && k r2
          | [] => false)

/-- Requires at least one digit (the `+` in `\d+`) then `]:` then `k`. -/
def headDigitThenBrk (k : List Char → Bool) (l : List Char) : Bool :=
  match l with
  | c :: _ => c.isDigit && digitsThenBrk k l
  | [] => false

/-- `searchMakeBrk k l` models `re.search` of `make\[\d+\]:` followed by a
continuation `k` on the remaining text: some position starts `make[`, then
one or more digits, then `]:`, and `k` accepts what follows. -/
def searchMakeBrk (k : List Char → Bool) : List Char → Bool
  | [] => false
  | c :: rest =>
      ("make[".toList.isPrefixOf (c :: rest) && headDigitThenBrk k ((c :: rest).drop 5))
        || searchMakeBrk k rest

/-- Embeds the continuation test of `analyze_errors`:
`'note:' in line or (re.search(r'make\[\d+\]:', line) and '***' in line) or line.strip()`
(Python truthiness of `line.strip()`: the line has a non-whitespace character). -/
def isContinuation (line : String) : Bool :=
  containsSub ("note:".toList) line.toList
    || (searchMakeBrk (fun _ => true) line.toList && containsSub ("***".toList) line.toList)
    || line.toList.any (fun c => !pyIsSpace c)

/-- A line whose `line.strip()` is empty (all characters whitespace). -/
def isBlankLine (line : String) : Bool :=
  line.toList.all pyIsSpace

/-- State of the segmentation loop in `analyze_errors`: the running error
counter, the accumulator `current_error_lines`, the `processing_error` flag
and the completed `error_blocks`. -/
structure SegState where
  count : Nat
  cur : List String
  processing : Bool
  blocks : List (List String)
deriving DecidableEq

/-- The block-closing code that `analyze_errors` repeats at each closing
point: `if processing_error and current_error_lines: error_blocks.append(...)`. -/
def flushCur (st : SegState) : List (List String) :=
  if st.processing && !st.cur.isEmpty then st.blocks ++ [st.cur] else st.blocks

/-- One iteration of the `for line in f` loop of `analyze_errors`. -/
def stepLine (st : SegState) (line : String) : SegState :=
  if isTrigger line then
    { count := st.count + 1, cur := [line], processing := true, blocks := flushCur st }
  else if st.processing && isContinuation line then
    { count := st.count, cur := st.cur ++ [line], processing := st.processing,
      blocks := st.blocks }
  else
    { count := st.count, cur := [], processing := false, blocks := flushCur st }

/-- Initial state of the loop. -/
def initState : SegState :=
  { count := 0, cur := [], processing := false, blocks := [] }

/-- Running the loop of `analyze_errors` over the (newline-stripped) input lines. -/
def runSeg (lines : List String) : SegState :=
  lines.foldl stepLine initState

/-- The error blocks produced by `analyze_errors`, including the final
flush `if processing_error and current_error_lines` after the loop. -/
def finalBlocks (lines : List String) : List (List String) :=
  flushCur (runSeg lines)

/-- The `error_count` value after the loop of `analyze_errors`. -/
def errorCount (lines : List String) : Nat :=
  (runSeg lines).count

/-- `errNumAt l` : the text `l` starts with `Error ` (lowercased) followed
by a digit — the tail `Error \d+` of the Makefile-error catalog pattern. -/
def errNumAt (l : List Char) : Bool :=
  "error ".toList.isPrefixOf l && (match l.drop 6 with
    | d :: _ => d.isDigit
    | [] => false)

/-- Searches `.*Error \d+` from the current position: `Error \d` must occur
before the next newline, since `.` does not match a newline. -/
def findErrNumOnLine : List Char → Bool
  | [] => false
  | c :: rest => errNumAt (c :: rest) || (!(c == '\n') && findErrNumOnLine rest)

/-- Searches `.*` followed by the literal `p` without crossing a newline. -/
def findOnLine (p : List Char) : List Char → Bool
  | [] => p.isEmpty
  | c :: rest => p.isPrefixOf (c :: rest) || (!(c == '\n') && findOnLine p rest)

/-- `sameLineSearch a b l` models `re.search` of `a.*b` for literals `a`, `b`
(with `.` not matching a newline): some position starts `a`, and `b` occurs
after it before the next newline. -/
def sameLineSearch (a b : List Char) : List Char → Bool
  | [] => a.isPrefixOf [] && findOnLine b (List.drop a.length [])
  | c :: rest =>
      (a.isPrefixOf (c :: rest) && findOnLine b ((c :: rest).drop a.length))
        || sameLineSearch a b rest

/-- Shape of a catalog pattern: a literal (the regex has no metacharacters
beyond escaped ones), two literals joined by `.*`, or the one pattern
`make\[\d+\]:.*Error \d+` combining `\d+` with `.*`. -/
inductive Pat where
  | lit : String → Pat
  | sameLine : String → String → Pat
  | makeNumErr : Pat
deriving DecidableEq

/-- `matchPat p text` : `re.search(p, text, re.IGNORECASE)` succeeds, where
`text` is the already lowercased joined block text. -/
def matchPat (p : Pat) (text : List Char) : Bool :=
  match p with
  | .lit s => containsSub (lowerList s.toList) text
  | .sameLine a b => sameLineSearch (lowerList a.toList) (lowerList b.toList) text
  | .makeNumErr => searchMakeBrk findErrNumOnLine text

/-- The ordered catalog `error_patterns` of `analyze_error_block`:
(pattern, error type, suggestion) triples, in source order. -/
def error_patterns : List (Pat × String × String) := [
  (Pat.lit "No such file or directory",
    "Missing Header or Source File",
    "Check if the file path is correct, or if required development libraries are missing (e.g., libssl-dev, zlib1g-dev)."),
  (Pat.lit "undefined reference to",
    "Link Error: Missing Library or Function",
    "Check if required libraries are missing (e.g., -lssl, -lcrypto), if library paths are in LDFLAGS/LDLIBS, or if function names are misspelled."),
  (Pat.lit "unrecognized command line option",
    "Compiler Option Not Supported",
    "Your compiler version may be too old or too new. Check the options passed to the compiler in the Makefile for compatibility with your compiler version. Consider upgrading or downgrading the toolchain."),
  (Pat.lit "misleading-indentation",
    "Code Indentation Does Not Match Logic",
    "This is a code style/logic potential error. Add braces '\x7b\x7d' after 'if', 'for', 'while' statements to clarify code block scope. Or disable this warning (not recommended)."),
  (Pat.lit "type specifier missing",
    "C Language Type Declaration Missing",
    "Variable or function declarations may be missing types (e.g., 'int'). For kernel modules, it could be missing headers or ordering issues, or API changes between kernel versions."),
  (Pat.makeNumErr,
    "Makefile Build Error",
    "This is a Makefile rule execution failure. Check the specific error messages above, usually a subcommand (e.g., 'gcc', 'ld', 'sh') returned a non-zero status code."),
  (Pat.lit "target emulation unknown",
    "Linker Emulation Mode Error",
    "Your linker (ld) does not recognize the specific emulation mode. Check if LLVM and GNU toolchains are mixed, or ensure LD variable correctly points to LLVM's lld."),
  (Pat.sameLine "cannot open" ".gz",
    "File Missing (Configuration May Not Be Generated)",
    "Check if 'make defconfig' or your device-specific config has been run. If 'make mrproper' was executed previously, reconfiguration is needed."),
  (Pat.lit "makes pointer from integer without a cast",
    "Type Conversion Error (Pointer and Integer)",
    "This is a severe type mismatch. Usually the function return type does not match the expected type (e.g., returning int but expecting pointer). May need to modify source code or use a more compatible compiler."),
  (Pat.lit "MODULE_IMPORT_NS(VFS_internal_I_am_really_a_filesystem_and_am_NOT_a_driver)",
    "Clang Version Anomaly",
    "This is a compiler and KernelSU compatibility issue, usually occurs with KernelSU official version and SukiSU-Ultra. For official version, you can choose the old v0.9.5 version; for SukiSU-Ultra, it is generally recommended to switch to a different KernelSU branch."),
  (Pat.lit "not found (required by clang)",
    "Clang Version Anomaly",
    "The current build system version is too old. If using 20.04, please use 22.04, otherwise use latest."),
  (Pat.lit "multiple definition of 'yylloc'",
    "Kernel Defect",
    "Modify YYLTYPE yylloc to extern YYLTYPE yylloc in scripts/dtc/dtc-lexer.lex.c_shipped"),
  (Pat.lit "assembler command failed with exit code 1",
    "Clang Compiler Error",
    "Switch to a different Clang compiler version"),
  (Pat.lit "incompatible pointer types passing 'atomic_long_t *'",
    "Source Code Pointer Type Error",
    "Usually occurs after manual patching of cred.h, replace atomic_inc_not_zero with atomic_long_inc_not_zero in the code"),
  (Pat.lit "-Werror",
    "Warning Treated as Error",
    "The compiler is treating warnings as errors due to -Werror flag. Either fix the underlying warning, or temporarily remove -Werror from CFLAGS/KBUILD_CFLAGS in the Makefile to allow compilation with warnings."),
  (Pat.lit "implicit declaration of function",
    "Implicit Function Declaration",
    "A function is being used without being declared first. Include the proper header file, or add a function declaration/prototype before use. This may also indicate an API change in newer kernel versions."),
  (Pat.sameLine "array subscript" "is outside array bounds",
    "Array Index Out of Bounds",
    "Accessing an array element outside its declared size. Check array bounds and ensure indices are within valid range [0, size-1]. This could be a buffer overflow risk."),
  (Pat.lit "division by zero",
    "Division by Zero",
    "Code attempts to divide by zero. Add proper checks to ensure the divisor is not zero before performing division operations."),
  (Pat.lit "null pointer dereference",
    "Null Pointer Dereference",
    "Attempting to access memory through a null pointer. Add null checks before dereferencing pointers, or ensure proper initialization before use."),
  (Pat.lit "incompatible implicit declaration",
    "Incompatible Implicit Declaration",
    "Function was implicitly declared with a signature that doesn't match its actual definition. Include the correct header or add a proper function prototype."),
  (Pat.lit "unused variable",
    "Unused Variable",
    "A variable is declared but never used. Either use the variable, remove it, or mark it with __maybe_unused attribute to suppress the warning."),
  (Pat.lit "uninitialized variable",
    "Uninitialized Variable",
    "A variable is being used before being initialized. Initialize the variable at declaration or before first use."),
  (Pat.lit "dereferencing pointer to incomplete type",
    "Dereferencing Incomplete Type",
    "Attempting to access members of a struct/union that hasn't been fully defined. Include the header file containing the complete type definition."),
  (Pat.lit "conflicting types",
    "Conflicting Types",
    "A function or variable has been declared with different types in different places. Ensure all declarations match the definition exactly."),
  (Pat.lit "redefinition of ",
    "Symbol Redefinition",
    "A function, variable, or macro has been defined multiple times. Check for duplicate definitions or include guards in header files."),
  (Pat.lit "deprecated",
    "Deprecated API Usage",
    "Using a deprecated function or feature. Update the code to use the recommended replacement API or suppress with -Wno-deprecated-declarations (not recommended for long-term)."),
  (Pat.lit "overflow in conversion",
    "Integer Overflow in Conversion",
    "A value is being converted to a type that cannot hold it. Check value ranges and use appropriate data types or add bounds checking."),
  (Pat.lit "shift count overflow",
    "Bit Shift Overflow",
    "The shift amount exceeds the bit width of the type. Ensure shift counts are less than the type's bit width (e.g., < 32 for int32)."),
  (Pat.lit "cast from pointer to integer of different size",
    "Pointer to Integer Size Mismatch",
    "Converting a pointer to an integer type with different size. Use uintptr_t or intptr_t types which are guaranteed to hold pointer values."),
  (Pat.lit "variable length array",
    "Variable Length Array (VLA) Used",
    "Using VLA which may cause stack overflow. Consider using dynamic allocation (kmalloc/vmalloc for kernel) instead, or ensure size is bounded."),
  (Pat.lit "taking address of temporary",
    "Address of Temporary Value",
    "Attempting to take the address of a temporary/rvalue. Store the value in a variable first, then take its address."),
  (Pat.lit "control reaches end of non-void function",
    "Missing Return Statement",
    "A non-void function may reach the end without returning a value. Add a return statement at the end of all code paths."),
  (Pat.lit "comparison of integer expressions of different signedness",
    "Signed/Unsigned Comparison",
    "Comparing signed and unsigned integers. Cast one operand to match the other's type, or ensure consistent types throughout."),
  (Pat.lit "result of operation is still indeterminate",
    "Sequence Point Violation",
    "Undefined behavior due to multiple modifications between sequence points. Break the expression into multiple statements."),
  (Pat.lit "stack-protector",
    "Stack Protection Enabled But Failed",
    "Stack smashing detected or stack protector instrumentation failed. Check for buffer overflows in the code, or disable with -fno-stack-protector (not recommended)."),
  (Pat.lit "clock skew detected",
    "Clock Skew Detected",
    "File timestamps are in the future. Synchronize system clock or touch the affected files to update timestamps.")]

/-- Default error type of `analyze_error_block`. -/
def defaultErrorType : String := "Uncommon Error"

/-- Default suggestion of `analyze_error_block` (returned with no prefix). -/
def defaultSuggestion : String :=
  "Please follow the compilation output error results and try to resolve using search engines"

/-- The `for pattern, etype, sugg in error_patterns: ... break` loop of
`analyze_error_block`: first match wins, defaults if none match. -/
def scanPatterns (text : List Char) : List (Pat × String × String) → String × String
  | [] => (defaultErrorType, defaultSuggestion)
  | (p, etype, sugg) :: rest =>
      if matchPat p text then (etype, "Suggestion: " ++ sugg) else scanPatterns text rest

/-- Embeds `analyze_error_block` (the unused `error_num` argument of the
source is dropped): join the block with newlines and scan the catalog. -/
def analyze_error_block (error_lines : List String) : String × String :=
  scanPatterns (lowerList (String.intercalate "\n" error_lines).toList) error_patterns

/-- The separator printed by `print_separator()`: 56 dashes. -/
def sepLine : String := String.mk (List.replicate 56 '-')

/-- The banner of the final summary: 56 equals signs. -/
def bannerLine : String := String.mk (List.replicate 56 '=')

/-- Result of a completed run of `analyze_errors`: the lines printed to
standard output (one entry per `print` call), whether `have_error` was
touched, and the returned count. -/
structure ReportResult where
  output : List String
  sentinel : Bool
  returnCount : Nat
deriving DecidableEq

/-- The lines printed for one block: header `Error #idx:`, each block line
indented by two spaces, the error type, the suggestion, a separator. -/
def renderBlock (idx : Nat) (block : List String) : List String :=
  ("Error #" ++ toString idx ++ ":")
    :: (block.map (fun l => "  " ++ l)
      ++ ["Error: " ++ (analyze_error_block block).1,
          "Suggestion: " ++ (analyze_error_block block).2,
          sepLine])

/-- The final summary section printed when `error_count > 0`. -/
def summarySection (count : Nat) (summaries : List (String × String)) : List String :=
  ["\n", bannerLine, "                    Error Summary", bannerLine]
    ++ (summaries.enum.map (fun p =>
          ["\n  [" ++ toString (p.1 + 1) ++ "] " ++ p.2.1, "      " ++ p.2.2])).flatten
    ++ ["\n" ++ bannerLine, "Total: " ++ toString count ++ " error(s)", bannerLine]

/-- Embeds the body of `analyze_errors` after the existence check: segment
the lines, print every block with its classification, print the totals
(touching `have_error` iff `error_count > 0`), and print the final summary. -/
def analyze_errors_pure (log_file : String) (lines : List String) : ReportResult :=
  let blocks := finalBlocks lines
  let error_count := errorCount lines
  let summaries := blocks.map analyze_error_block
  { output :=
      ["Analyzing log file: " ++ log_file, sepLine]
        ++ (blocks.enum.map (fun p => renderBlock (p.1 + 1) p.2)).flatten
        ++ (if error_count > 0 then
              ["Total found " ++ toString error_count ++ " error(s).",
               "Please carefully review the error messages and suggestions above."]
            else ["No errors found."])
        ++ [sepLine]
        ++ (if error_count > 0 then summarySection error_count summaries else []),
    sentinel := error_count > 0,
    returnCount := error_count }

/-- Outcome of `analyze_errors`:
  * `aborted code stdout stderr` — the `sys.exit(1)` path, with the lines
    printed to each stream up to the exit;
  * `raised stdout` — an uncaught exception (the `open` call failing on an
    existing but unreadable file or a directory), with the lines already
    printed to standard output when it is thrown; the Python runtime then
    prints a traceback to standard error — runtime text that is not part
    of the program and is not modelled — and exits with a non-zero status;
  * `completed report` — a normal run. -/
inductive RunResult where
  | aborted : Nat → List String → List String → RunResult
  | raised : List String → RunResult
  | completed : ReportResult → RunResult
deriving DecidableEq

/-- Embeds `analyze_errors` up to and including the `open` call: the
existence of the file and the success of `open` are passed as booleans,
the file content as lines. When the file is missing, the diagnostic is
printed — by `print`, hence to standard output — and the process exits
with status 1 having printed nothing else and nothing to standard error.
When the file exists, the header and separator are printed first; if
`open` then fails the exception propagates (`raised`), otherwise the run
completes. -/
def analyze_errors (log_file : String) (fileExists readable : Bool)
    (lines : List String) : RunResult :=
  if !fileExists then
    RunResult.aborted 1
      ["Error: Log file '" ++ log_file ++ "' does not exist."] []
  else if !readable then
    RunResult.raised ["Analyzing log file: " ++ log_file, sepLine]
  else
    RunResult.completed (analyze_errors_pure log_file lines)

theorem containsSub_iff (p l : List Char) : containsSub p l = true ↔ p <:+: l := by
  induction l with
  | nil => simp [containsSub, List.isEmpty_iff, List.infix_nil]
  | cons c rest ih =>
      simp [containsSub, List.infix_cons_iff, ih, List.isPrefixOf_iff_prefix]

theorem wsThenSearch_iff (p l : List Char) :
    wsThenSearch p l = true ↔
      ∃ pre c post, l = pre ++ c :: (p ++ post) ∧ pyIsSpace c = true := by
  induction l with
  | nil =>
      simp only [wsThenSearch]
      constructor
      · intro h
        exact absurd h (by simp)
      · rintro ⟨pre, c, post, h, -⟩
        exact absurd h.symm (by simp)
  | cons d rest ih =>
      simp only [wsThenSearch, Bool.or_eq_true, Bool.and_eq_true,
        List.isPrefixOf_iff_prefix, ih]
      constructor
      · rintro (⟨hd, t, ht⟩ | ⟨pre, c, post, heq, hc⟩)
        · exact ⟨[], d, t, by simp [← ht], hd⟩
        · exact ⟨d :: pre, c, post, by simp [heq], hc⟩
      · rintro ⟨pre, c, post, heq, hc⟩
        cases pre with
        | nil =>
            simp only [List.nil_append, List.cons.injEq] at heq
            exact Or.inl ⟨heq.1 ▸ hc, post, heq.2.symm⟩
        | cons e pre' =>
            simp only [List.cons_append, List.cons.injEq] at heq
            exact Or.inr ⟨pre', c, post, heq.2, hc⟩

theorem toLower_of_space (c : Char) (h : pyIsSpace c = true) : Char.toLower c = c := by
  simp only [pyIsSpace, Bool.or_eq_true, beq_iff_eq] at h
  rcases h with ((((h | h) | h) | h) | h) | h <;> subst h <;> decide

theorem lower_blank (line : String) (h : isBlankLine line = true) :
    ∀ c ∈ lowerList line.toList, pyIsSpace c = true := by
  intro c hc
  simp only [lowerList, List.mem_map] at hc
  obtain ⟨d, hd, hdc⟩ := hc
  have hsp : pyIsSpace d = true := by
    simp only [isBlankLine, List.all_eq_true] at h
    exact h d hd
  rw [← hdc, toLower_of_space d hsp]
  exact hsp

theorem containsSub_blank (p l : List Char) (c : Char) (hcp : c ∈ p)
    (hc : pyIsSpace c = false) (hl : ∀ d ∈ l, pyIsSpace d = true) :
    containsSub p l = false := by
  cases h : containsSub p l with
  | false => rfl
  | true =>
      have hinf : p <:+: l := (containsSub_iff p l).mp h
      have := hl c (hinf.subset hcp)
      rw [this] at hc
      exact absurd hc (by simp)

theorem wsThenSearch_blank (p l : List Char) (c : Char) (hcp : p.head? = some c)
    (hc : pyIsSpace c = false) (hl : ∀ d ∈ l, pyIsSpace d = true) :
    wsThenSearch p l = false := by
  cases h : wsThenSearch p l with
  | false => rfl
  | true =>
      obtain ⟨pre, e, post, heq, he⟩ := (wsThenSearch_iff p l).mp h
      have hcl : c ∈ l := by
        rw [heq]
        cases p with
        | nil => simp at hcp
        | cons p0 ps =>
            simp only [List.head?_cons, Option.some.injEq] at hcp
            subst hcp
            simp
      have := hl c hcl
      rw [this] at hc
      exact absurd hc (by simp)

theorem searchMakeBrk_blank (k : List Char → Bool) (l : List Char)
    (hl : ∀ d ∈ l, pyIsSpace d = true) : searchMakeBrk k l = false := by
  induction l with
  | nil => rfl
  | cons c rest ih =>
      have hc := hl c (List.mem_cons_self c rest)
      have hrest : ∀ d ∈ rest, pyIsSpace d = true := fun d hd => hl d (List.mem_cons_of_mem c hd)
      have hmc : ('m' == c) = false := by
        cases hcm : ('m' == c) with
        | false => rfl
        | true =>
            have hceq : 'm' = c := beq_iff_eq.mp hcm
            rw [← hceq] at hc
            exact absurd hc (by decide)
      have hm : "make[".toList.isPrefixOf (c :: rest) = false := by
        rw [show "make[".toList = 'm' :: "ake[".toList from rfl]
        rw [List.isPrefixOf_cons₂]
        rw [hmc]
        rfl
      rw [searchMakeBrk, hm, ih hrest]
      rfl

theorem isTrigger_blank (line : String) (h : isBlankLine line = true) :
    isTrigger line = false := by
  have hl := lower_blank line h
  rw [isTrigger]
  rw [wsThenSearch_blank ("error:".toList) _ 'e' (by decide) (by decide) hl]
  rw [wsThenSearch_blank ("fatal error:".toList) _ 'f' (by decide) (by decide) hl]
  rw [containsSub_blank ("undefined reference to".toList) _ 'u' (by decide) (by decide) hl]
  rfl

theorem isContinuation_blank (line : String) (h : isBlankLine line = true) :
    isContinuation line = false := by
  have hl : ∀ d ∈ line.toList, pyIsSpace d = true := by
    simpa [isBlankLine, List.all_eq_true] using h
  rw [isContinuation]
  rw [containsSub_blank ("note:".toList) _ 'n' (by decide) (by decide) hl]
  rw [containsSub_blank ("***".toList) _ '*' (by decide) (by decide) hl]
  simp only [Bool.and_false, Bool.false_or, Bool.or_false]
  refine List.any_eq_false.mpr ?_
  intro x hx
  simp [hl x hx]

theorem isContinuation_of_nonblank (line : String) (h : isBlankLine line = false) :
    isContinuation line = true := by
  obtain ⟨c, hc, hnc⟩ : ∃ c ∈ line.toList, ¬ pyIsSpace c = true := by
    simpa [isBlankLine, List.all_eq_false] using h
  rw [isContinuation]
  have hany : line.toList.any (fun c => !pyIsSpace c) = true := by
    refine List.any_eq_true.mpr ⟨c, hc, ?_⟩
    have hcf : pyIsSpace c = false := by
      cases hpc : pyIsSpace c
      · rfl
      · exact absurd hpc hnc
    simp [hcf]
  rw [hany]
  simp

/-- Invariant of the segmentation loop: the accumulator is empty exactly
when not processing, otherwise it is non-empty and starts with a trigger
line; every completed block is non-empty and starts with a trigger line;
the number of blocks (counting the open one) never exceeds the counter;
and a non-zero counter means some block is completed or open. -/
structure SegInv (st : SegState) : Prop where
  curEmpty : st.processing = false → st.cur = []
  curTrig : st.processing = true → ∃ h t, st.cur = h :: t ∧ isTrigger h = true
  blocksTrig : ∀ b ∈ st.blocks, ∃ h t, b = h :: t ∧ isTrigger h = true
  countBound : st.blocks.length + (if st.processing then 1 else 0) ≤ st.count
  trackNonEmpty : st.count ≠ 0 → st.blocks ≠ [] ∨ st.processing = true

theorem flushCur_blocksTrig (st : SegState) (inv : SegInv st) :
    ∀ b ∈ flushCur st, ∃ h t, b = h :: t ∧ isTrigger h = true := by
  intro b hb
  unfold flushCur at hb
  by_cases hp : (st.processing && !st.cur.isEmpty) = true
  · rw [if_pos hp] at hb
    rcases List.mem_append.mp hb with h1 | h2
    · exact inv.blocksTrig b h1
    · have hbc : b = st.cur := by simpa using h2
      subst hbc
      exact inv.curTrig (Bool.and_eq_true _ _ |>.mp hp).1
  · rw [if_neg hp] at hb
    exact inv.blocksTrig b hb

theorem flushCur_length (st : SegState) :
    (flushCur st).length ≤ st.blocks.length + (if st.processing then 1 else 0) := by
  unfold flushCur
  by_cases hp : (st.processing && !st.cur.isEmpty) = true
  · rw [if_pos hp]
    have hpt : st.processing = true := (Bool.and_eq_true _ _ |>.mp hp).1
    simp [hpt]
  · rw [if_neg hp]
    exact Nat.le_add_right _ _

theorem flushCur_ne_nil_left (st : SegState) (h : st.blocks ≠ []) : flushCur st ≠ [] := by
  unfold flushCur
  by_cases hp : (st.processing && !st.cur.isEmpty) = true
  · rw [if_pos hp]
    simp
  · rw [if_neg hp]
    exact h

theorem flushCur_ne_nil_processing (st : SegState) (inv : SegInv st)
    (h : st.processing = true) : flushCur st ≠ [] := by
  obtain ⟨hd, tl, hcur, -⟩ := inv.curTrig h
  unfold flushCur
  rw [if_pos (by simp [h, hcur])]
  simp

theorem segInv_step (st : SegState) (inv : SegInv st) (line : String) :
    SegInv (stepLine st line) := by
  unfold stepLine
  by_cases ht : isTrigger line = true
  · simp only [ht, if_true]
    exact
      { curEmpty := fun h => by simp at h
        curTrig := fun _ => ⟨line, [], rfl, ht⟩
        blocksTrig := flushCur_blocksTrig st inv
        countBound := by
          simp only [if_true]
          exact Nat.add_le_add_right
            (le_trans (flushCur_length st) inv.countBound) 1
        trackNonEmpty := fun _ => Or.inr rfl }
  · simp only [ht, if_false]
    by_cases hc : (st.processing && isContinuation line) = true
    · simp only [hc, if_true]
      have hpt : st.processing = true := (Bool.and_eq_true _ _ |>.mp hc).1
      exact
        { curEmpty := fun h => by rw [hpt] at h; simp at h
          curTrig := fun _ => by
            obtain ⟨hd, tl, hcur, htr⟩ := inv.curTrig hpt
            exact ⟨hd, tl ++ [line], by simp [hcur], htr⟩
          blocksTrig := inv.blocksTrig
          countBound := inv.countBound
          trackNonEmpty := fun _ => Or.inr hpt }
    · simp only [hc, if_false]
      exact
        { curEmpty := fun _ => rfl
          curTrig := fun h => by simp at h
          blocksTrig := flushCur_blocksTrig st inv
          countBound := by
            have hle : (flushCur st).length ≤ st.count :=
              le_trans (flushCur_length st) inv.countBound
            simpa using hle
          trackNonEmpty := fun h => by
            rcases inv.trackNonEmpty h with hb | hp
            · exact Or.inl (flushCur_ne_nil_left st hb)
            · exact Or.inl (flushCur_ne_nil_processing st inv hp) }

theorem segInv_foldl (lines : List String) (st : SegState) (inv : SegInv st) :
    SegInv (lines.foldl stepLine st) := by
  induction lines generalizing st with
  | nil => exact inv
  | cons l rest ih => exact ih (stepLine st l) (segInv_step st inv l)

theorem segInv_init : SegInv initState :=
  { curEmpty := fun _ => rfl
    curTrig := fun h => by simp [initState] at h
    blocksTrig := fun b hb => by simp [initState] at hb
    countBound := by simp [initState]
    trackNonEmpty := fun h => absurd rfl h }

theorem segInv_runSeg (lines : List String) : SegInv (runSeg lines) :=
  segInv_foldl lines initState segInv_init

theorem count_foldl (lines : List String) (st : SegState) :
    (lines.foldl stepLine st).count = st.count + lines.countP (fun l => isTrigger l) := by
  induction lines generalizing st with
  | nil => simp
  | cons l rest ih =>
      rw [List.foldl_cons, ih (stepLine st l), List.countP_cons]
      have hstep : (stepLine st l).count = st.count + (if isTrigger l then 1 else 0) := by
        unfold stepLine
        by_cases ht : isTrigger l = true
        · simp [ht]
        · by_cases hc : (st.processing && isContinuation l) = true <;> simp [ht, hc]
      rw [hstep]
      by_cases ht : isTrigger l = true <;> simp [ht] <;> omega

theorem errorCount_eq_countP (lines : List String) :
    errorCount lines = lines.countP (fun l => isTrigger l) := by
  unfold errorCount runSeg
  rw [count_foldl lines initState]
  simp [initState]

theorem errorCount_pos_iff (lines : List String) :
    0 < errorCount lines ↔ finalBlocks lines ≠ [] := by
  constructor
  · intro h
    have hne : (runSeg lines).count ≠ 0 := by
      unfold errorCount at h
      omega
    rcases (segInv_runSeg lines).trackNonEmpty hne with hb | hp
    · exact flushCur_ne_nil_left (runSeg lines) hb
    · exact flushCur_ne_nil_processing (runSeg lines) (segInv_runSeg lines) hp
  · intro h
    by_contra hc
    have h0 : (runSeg lines).count = 0 := by
      unfold errorCount at hc
      omega
    have hcb := (segInv_runSeg lines).countBound
    rw [h0] at hcb
    cases hp : (runSeg lines).processing with
    | true => rw [hp] at hcb; simp at hcb
    | false =>
        rw [hp] at hcb
        rw [if_neg (by simp)] at hcb
        have hb : (runSeg lines).blocks = [] :=
          List.length_eq_zero.mp (by omega)
        apply h
        unfold finalBlocks flushCur
        rw [hp]
        simp [hb]

/-- Claim C3: for every input, the number of emitted blocks is at most the
number of trigger lines, and the error counter equals exactly the number of
trigger lines (it increments once per trigger line, independent of how the
lines group into blocks). -/
theorem C3_count_eq_triggers (lines : List String) :
    (finalBlocks lines).length ≤ lines.countP (fun l => isTrigger l) ∧
    errorCount lines = lines.countP (fun l => isTrigger l) := by
  refine ⟨?_, errorCount_eq_countP lines⟩
  have h := le_trans (flushCur_length (runSeg lines)) (segInv_runSeg lines).countBound
  unfold finalBlocks
  rw [← errorCount_eq_countP lines]
  exact h

/-- Claim C8: every emitted error block is non-empty and its first line is
a trigger line. -/
theorem C8_block_head_trigger (lines : List String) (b : List String)
    (hb : b ∈ finalBlocks lines) :
    ∃ h t, b = h :: t ∧ isTrigger h = true := by
  unfold finalBlocks at hb
  exact flushCur_blocksTrig (runSeg lines) (segInv_runSeg lines) b hb

/-- Witness for C8 at a concrete input: the single-line log
`" error: boom"` yields the one block `[" error: boom"]`. -/
theorem C8_witness :
    ∃ h t, ([" error: boom"] : List String) = h :: t ∧ isTrigger h = true :=
  C8_block_head_trigger [" error: boom"] [" error: boom"] (by decide)

/-- The trigger test as the spec words it: a case-insensitive occurrence of
the literal `" error:"` (a space, not arbitrary whitespace), `" fatal error:"`,
or `"undefined reference to"`. Stated from the spec for comparison with
`isTrigger`, which embeds the source's `\s`-based regex. -/
def specTriggerLit (line : String) : Bool :=
  containsSub (lowerList " error:".toList) (lowerList line.toList)
    || containsSub (lowerList " fatal error:".toList) (lowerList line.toList)
    || containsSub (lowerList "undefined reference to".toList) (lowerList line.toList)

/-- Claim C5 (counterexample): a line with a tab before `error:` is a
trigger for the code (regex `\serror:` — `\s` matches a tab), but contains
none of the three literal patterns the claim states, so the claimed
characterization is not an equivalence. -/
theorem C5_counterexample :
    isTrigger "\terror: foo" = true ∧ specTriggerLit "\terror: foo" = false := by
  decide

/-- Claim C5 (amended): a line is a trigger iff, after lowercasing, it
contains some whitespace character (in the sense of `\s`, not just a space)
immediately followed by `error:`, or contains `undefined reference to`
(the `\sfatal error:` alternative is subsumed by `\serror:`). -/
theorem C5_trigger_characterization (line : String) :
    isTrigger line = true ↔
      ((∃ pre c post, lowerList line.toList = pre ++ c :: ("error:".toList ++ post) ∧
          pyIsSpace c = true) ∨
        "undefined reference to".toList <:+: lowerList line.toList) := by
  rw [isTrigger]
  simp only [Bool.or_eq_true, wsThenSearch_iff, containsSub_iff]
  constructor
  · rintro ((h | h) | h)
    · exact Or.inl h
    · obtain ⟨pre, c, post, heq, hc⟩ := h
      refine Or.inl ⟨pre ++ c :: "fatal".toList, ' ', post, ?_, by decide⟩
      rw [heq]
      rw [show ("fatal error:".toList : List Char) = "fatal".toList ++ ' ' :: "error:".toList from
        by decide]
      simp
    · exact Or.inr h
  · rintro (h | h)
    · exact Or.inl (Or.inl h)
    · exact Or.inr h

/-- Claim C1: the segmentation follows the claimed state machine. A trigger
line always yields the state with the previous block closed when open and
non-empty, the counter incremented, and a fresh accumulator holding just
the trigger line; a non-blank non-trigger line while in error appends to
the accumulator; a blank line — or any non-trigger line while not in
error — closes any open non-empty block and clears flag and accumulator;
and a trailing blank line before end of stream leaves the emitted blocks
(and the counter) unchanged, so the open block is closed exactly once. -/
theorem C1_segmentation_state_machine (st : SegState) (line : String)
    (lines : List String) (b : String) :
    (isTrigger line = true →
      stepLine st line =
        { count := st.count + 1, cur := [line], processing := true, blocks := flushCur st }) ∧
    (isTrigger line = false → isBlankLine line = false → st.processing = true →
      stepLine st line =
        { count := st.count, cur := st.cur ++ [line], processing := st.processing,
          blocks := st.blocks }) ∧
    (isTrigger line = false → (isBlankLine line = true ∨ st.processing = false) →
      stepLine st line =
        { count := st.count, cur := [], processing := false, blocks := flushCur st }) ∧
    (isBlankLine b = true →
      finalBlocks (lines ++ [b]) = finalBlocks lines ∧
      errorCount (lines ++ [b]) = errorCount lines) := by
  refine ⟨?_, ?_, ?_, ?_⟩
  · intro ht
    simp [stepLine, ht]
  · intro ht hb hp
    have hc := isContinuation_of_nonblank line hb
    simp [stepLine, ht, hp, hc]
  · intro ht hor
    rcases hor with hb | hp
    · have hc := isContinuation_blank line hb
      simp [stepLine, ht, hc]
    · simp [stepLine, ht, hp]
  · intro hb
    have ht := isTrigger_blank b hb
    have hc := isContinuation_blank b hb
    have hstep : runSeg (lines ++ [b]) = stepLine (runSeg lines) b := by
      unfold runSeg
      rw [List.foldl_append]
      rfl
    constructor
    · unfold finalBlocks
      rw [hstep]
      simp [stepLine, flushCur, ht, hc]
    · unfold errorCount
      rw [hstep]
      simp [stepLine, ht, hc]

/-- Witness for C1 at concrete inputs: a trigger step from the initial
state, and a trailing blank line not duplicating the final block. -/
theorem C1_witness :
    (stepLine initState " error: x" =
      { count := 1, cur := [" error: x"], processing := true, blocks := [] }) ∧
    finalBlocks [" error: x", ""] = finalBlocks [" error: x"] := by
  constructor
  · have h := (C1_segmentation_state_machine initState " error: x" [] "").1 (by decide)
    rw [h]
    decide
  · exact ((C1_segmentation_state_machine initState "x" [" error: x"] "").2.2.2 (by decide)).1

theorem scanPatterns_eq_find (text : List Char) (ps : List (Pat × String × String)) :
    scanPatterns text ps =
      match ps.find? (fun e => matchPat e.1 text) with
      | some e => (e.2.1, "Suggestion: " ++ e.2.2)
      | none => (defaultErrorType, defaultSuggestion) := by
  induction ps with
  | nil => rfl
  | cons e rest ih =>
      obtain ⟨p, etype, sugg⟩ := e
      rw [scanPatterns, List.find?_cons]
      by_cases hm : matchPat p text = true
      · simp [hm]
      · have hm' : matchPat p text = false := by
          cases h : matchPat p text
          · rfl
          · exact absurd h hm
        simp [hm', ih]

/-- Claim C2: classification returns exactly one (category, suggestion)
pair per block: the block's lines are joined with newline separators, the
catalog is scanned top to bottom, and the first entry whose
case-insensitive search succeeds anywhere in the joined text determines
the returned pair (its suggestion behind the `Suggestion: ` prefix the
code adds — see C10); if no entry matches, the default `"Uncommon Error"`
with the generic advice is returned. Holds for every finite block. -/
theorem C2_first_match_classification (error_lines : List String) :
    analyze_error_block error_lines =
      match error_patterns.find?
          (fun e => matchPat e.1 (lowerList (String.intercalate "\n" error_lines).toList)) with
      | some e => (e.2.1, "Suggestion: " ++ e.2.2)
      | none => (defaultErrorType, defaultSuggestion) :=
  scanPatterns_eq_find (lowerList (String.intercalate "\n" error_lines).toList) error_patterns

/-- Claim C7: for every block whose joined text contains both
`"No such file or directory"` and `"-Werror"`, the emitted category is
`"Missing Header or Source File"` — the earlier catalog entry wins. -/
theorem C7_missing_header_wins (error_lines : List String)
    (h1 : "No such file or directory".toList <:+: (String.intercalate "\n" error_lines).toList)
    (h2 : "-Werror".toList <:+: (String.intercalate "\n" error_lines).toList) :
    (analyze_error_block error_lines).1 = "Missing Header or Source File" := by
  have hm : matchPat (Pat.lit "No such file or directory")
      (lowerList (String.intercalate "\n" error_lines).toList) = true := by
    rw [matchPat]
    rw [containsSub_iff]
    exact h1.map Char.toLower
  unfold analyze_error_block error_patterns
  rw [scanPatterns]
  rw [if_pos hm]

/-- Witness for C7 at a concrete block containing both substrings. -/
theorem C7_witness :
    (analyze_error_block ["foo.h: No such file or directory [-Werror]"]).1 =
      "Missing Header or Source File" :=
  C7_missing_header_wins ["foo.h: No such file or directory [-Werror]"] (by decide) (by decide)

/-- Claim C10: when some catalog pattern matches, `analyze_error_block`
returns the suggestion already prefixed with `Suggestion: `, so the report
line printed as `"Suggestion: " ++ suggestion` begins with a doubled
`Suggestion: Suggestion: `; when no pattern matches, the default
suggestion is returned without that prefix and the printed line carries a
single `Suggestion: `. -/
theorem C10_doubled_suggestion_label (error_lines : List String) :
    ((∃ e, error_patterns.find?
          (fun e => matchPat e.1 (lowerList (String.intercalate "\n" error_lines).toList)) =
            some e) →
      ∃ r, (analyze_error_block error_lines).2 = "Suggestion: " ++ r ∧
        "Suggestion: " ++ (analyze_error_block error_lines).2 =
          "Suggestion: Suggestion: " ++ r) ∧
    (error_patterns.find?
          (fun e => matchPat e.1 (lowerList (String.intercalate "\n" error_lines).toList)) =
        none →
      (analyze_error_block error_lines).2 = defaultSuggestion ∧
      (∀ r, (analyze_error_block error_lines).2 ≠ "Suggestion: " ++ r)) := by
  have hkey := scanPatterns_eq_find
    (lowerList (String.intercalate "\n" error_lines).toList) error_patterns
  constructor
  · rintro ⟨e, he⟩
    have hval : analyze_error_block error_lines = (e.2.1, "Suggestion: " ++ e.2.2) := by
      unfold analyze_error_block
      rw [hkey, he]
    refine ⟨e.2.2, ?_, ?_⟩
    · rw [hval]
    · rw [hval]
      show "Suggestion: " ++ ("Suggestion: " ++ e.2.2) = "Suggestion: Suggestion: " ++ e.2.2
      rw [← String.append_assoc]
      rw [show ("Suggestion: " ++ "Suggestion: " : String) = "Suggestion: Suggestion: " from
        by decide]
  · intro he
    have hval : analyze_error_block error_lines = (defaultErrorType, defaultSuggestion) := by
      unfold analyze_error_block
      rw [hkey, he]
    rw [hval]
    refine ⟨rfl, ?_⟩
    intro r hr
    have hd : defaultSuggestion.data.head? = ("Suggestion: " ++ r).data.head? :=
      congrArg (fun s => s.data.head?) hr
    rw [String.data_append] at hd
    rw [show ("Suggestion: ".data : List Char) = 'S' :: "uggestion: ".data from by decide] at hd
    rw [List.cons_append, List.head?_cons] at hd
    rw [show defaultSuggestion.data.head? = some 'P' from by decide] at hd
    exact absurd (Option.some.inj hd) (by decide)

/-- Witness for C10: a matched block gets the doubled prefix, an unmatched
block keeps the single one. -/
theorem C10_witness :
    (∃ r, (analyze_error_block ["foo: No such file or directory"]).2 =
        "Suggestion: " ++ r ∧
      "Suggestion: " ++ (analyze_error_block ["foo: No such file or directory"]).2 =
        "Suggestion: Suggestion: " ++ r) ∧
    ((analyze_error_block ["nothing to see"]).2 = defaultSuggestion ∧
      ∀ r, (analyze_error_block ["nothing to see"]).2 ≠ "Suggestion: " ++ r) :=
  ⟨(C10_doubled_suggestion_label ["foo: No such file or directory"]).1 ⟨_, by rfl⟩,
    (C10_doubled_suggestion_label ["nothing to see"]).2 (by decide)⟩

/-- Claim C4: the sentinel `have_error` is touched iff at least one error
block was found; and for every input with zero trigger lines the returned
count is 0, the sentinel is not created, and `"No errors found."` is
printed. -/
theorem C4_sentinel_iff_blocks (log_file : String) (lines : List String) :
    ((analyze_errors_pure log_file lines).sentinel = true ↔ finalBlocks lines ≠ []) ∧
    (lines.countP (fun l => isTrigger l) = 0 →
      (analyze_errors_pure log_file lines).returnCount = 0 ∧
      (analyze_errors_pure log_file lines).sentinel = false ∧
      "No errors found." ∈ (analyze_errors_pure log_file lines).output) := by
  constructor
  · have hs : (analyze_errors_pure log_file lines).sentinel = true ↔
        0 < errorCount lines := by
      simp [analyze_errors_pure]
    rw [hs]
    exact errorCount_pos_iff lines
  · intro h0
    have hc : errorCount lines = 0 := by
      rw [errorCount_eq_countP lines, h0]
    refine ⟨?_, ?_, ?_⟩
    · simp [analyze_errors_pure, hc]
    · simp [analyze_errors_pure, hc]
    · simp [analyze_errors_pure, hc]

/-- Witness for C4 at a concrete trigger-free input. -/
theorem C4_witness :
    ((analyze_errors_pure "error.log" ["all good"]).sentinel = true ↔
      finalBlocks ["all good"] ≠ []) ∧
    ((analyze_errors_pure "error.log" ["all good"]).returnCount = 0 ∧
      (analyze_errors_pure "error.log" ["all good"]).sentinel = false ∧
      "No errors found." ∈ (analyze_errors_pure "error.log" ["all good"]).output) :=
  ⟨(C4_sentinel_iff_blocks "error.log" ["all good"]).1,
    (C4_sentinel_iff_blocks "error.log" ["all good"]).2 (by decide)⟩

/-- Claim C9: the analyzer is deterministic — report text, returned count
and sentinel decision are a pure function of the input lines, so two runs
on the same content agree on all three. -/
theorem C9_deterministic (log_file : String) (lines : List String)
    (r1 r2 : ReportResult)
    (h1 : r1 = analyze_errors_pure log_file lines)
    (h2 : r2 = analyze_errors_pure log_file lines) :
    r1.output = r2.output ∧ r1.returnCount = r2.returnCount ∧
      r1.sentinel = r2.sentinel := by
  subst h1
  subst h2
  exact ⟨rfl, rfl, rfl⟩

/-- Witness for C9 at a concrete input. -/
theorem C9_witness :
    (analyze_errors_pure "error.log" ["a error: x"]).output =
        (analyze_errors_pure "error.log" ["a error: x"]).output ∧
      (analyze_errors_pure "error.log" ["a error: x"]).returnCount =
        (analyze_errors_pure "error.log" ["a error: x"]).returnCount ∧
      (analyze_errors_pure "error.log" ["a error: x"]).sentinel =
        (analyze_errors_pure "error.log" ["a error: x"]).sentinel :=
  C9_deterministic "error.log" ["a error: x"] _ _ rfl rfl

/-- Claim C6 (counterexample): the claim fails on both abort paths at the
concrete file `error.log`. Missing file: the run exits with status 1 but
the diagnostic is the single line printed by `print` — the second
(standard output) stream of `aborted` — while the third (standard error)
stream is empty, contradicting "a diagnostic written to standard error".
Existing but unreadable file: the run aborts through the `open` exception
only after the report header and the separator rule have been printed,
contradicting "no part of the report is emitted before the abort". -/
theorem C6_counterexample :
    analyze_errors "error.log" false true [] =
      RunResult.aborted 1 ["Error: Log file 'error.log' does not exist."] [] ∧
    analyze_errors "error.log" true false [] =
      RunResult.raised ["Analyzing log file: error.log", sepLine] := by
  decide

/-- Claim C6 (amended): when the input log file does not exist, the
process terminates immediately with exit status 1 and the diagnostic
written to standard output — not standard error, which stays empty — and
no part of the report is emitted before that abort; when the file exists
but cannot be opened, the process aborts through the uncaught `open`
exception (non-zero exit, runtime traceback on standard error), but only
after the report header and separator have already been printed; an
inaccessible input log is the only abort condition: a run that opens the
log successfully produces the complete report. -/
theorem C6_abort_behavior (log_file : String) (lines : List String) (r : Bool) :
    analyze_errors log_file false r lines =
      RunResult.aborted 1 ["Error: Log file '" ++ log_file ++ "' does not exist."] [] ∧
    analyze_errors log_file true false lines =
      RunResult.raised ["Analyzing log file: " ++ log_file, sepLine] ∧
    analyze_errors log_file true true lines =
      RunResult.completed (analyze_errors_pure log_file lines) :=
  ⟨rfl, rfl, rfl⟩
